import Mathlib

/-!
Verification of the cube move-translation engine of `server.go`.

The Go program keeps six 3x3 facelet grids in `Cube.faces` (a map keyed by
the byte labels `U L F R B D`), a calibration map `Cube.calibs` from
virtual face labels to physical face labels, and translates algebraic
moves into the primitive actuations flip / turn / D.  The definitions
below shallowly embed that code: the `faces` map becomes six named fields
(`up .. down`), the `calibs` map becomes six `FaceCode` fields
(`cU .. cD`), and in-place mutation becomes explicit state passing.  Each
definition cites the `server.go` lines it translates.
-/

/-- Go `type Color int` with its seven constants (server.go:30-40). -/
inductive Color where
  | White | Red | Green | Blue | Yellow | Orange | Unknown
deriving DecidableEq, Repr

/-- The six face labels `Up Left Front Right Back Down` (server.go:42-47).
In Go they are the bytes `U L F R B D`. -/
inductive FaceCode where
  | U | L | F | R | B | D
deriving DecidableEq, Repr, Fintype

/-- The byte value of a face label (server.go:42-47). -/
def labChar : FaceCode → Char
  | .U => 'U'
  | .L => 'L'
  | .F => 'F'
  | .R => 'R'
  | .B => 'B'
  | .D => 'D'

/-- Go `type Face struct` (server.go:85-87), the nine entries of the
row-major array `Pieces` spelled out as fields `p0 .. p8`. -/
structure Face where
  p0 : Color
  p1 : Color
  p2 : Color
  p3 : Color
  p4 : Color
  p5 : Color
  p6 : Color
  p7 : Color
  p8 : Color
deriving DecidableEq, Repr

/-- The array access `Pieces[i]` for `i : Fin 9`. -/
def Face.piece (f : Face) (i : Fin 9) : Color :=
  [f.p0, f.p1, f.p2, f.p3, f.p4, f.p5, f.p6, f.p7, f.p8].get i

/-- The row-major list of the nine facelets, i.e. the order in which Go
iterates the `Pieces` array. -/
def Face.toList (f : Face) : List Color :=
  [f.p0, f.p1, f.p2, f.p3, f.p4, f.p5, f.p6, f.p7, f.p8]

/-- Builds a `Face` from a list of colors, position `i` from element `i`
(used to embed `readFace`, which writes the array cells in order). -/
def Face.ofList (l : List Color) : Face :=
  ⟨l.getD 0 .Unknown, l.getD 1 .Unknown, l.getD 2 .Unknown,
   l.getD 3 .Unknown, l.getD 4 .Unknown, l.getD 5 .Unknown,
   l.getD 6 .Unknown, l.getD 7 .Unknown, l.getD 8 .Unknown⟩

/-- Go `rotateClock` (server.go:103-117).  The Go body moves the corners
and edges through a `saved` temporary; that sequence of writes nets to the
simultaneous assignment below (each source cell is read before it is
overwritten). -/
def rotateClock (f : Face) : Face :=
  { f with p0 := f.p6, p6 := f.p8, p8 := f.p2, p2 := f.p0,
           p1 := f.p3, p3 := f.p7, p7 := f.p5, p5 := f.p1 }

/-- Go `rotateCounterclock` (server.go:119-133), netted the same way. -/
def rotateCounterclock (f : Face) : Face :=
  { f with p0 := f.p2, p2 := f.p8, p8 := f.p6, p6 := f.p0,
           p1 := f.p5, p5 := f.p7, p7 := f.p3, p3 := f.p1 }

/-- Go `invert` (server.go:135-140): the four parallel swaps 0-8, 1-7,
2-6, 3-5; the center 4 stays. -/
def invert (f : Face) : Face :=
  { f with p0 := f.p8, p8 := f.p0, p1 := f.p7, p7 := f.p1,
           p2 := f.p6, p6 := f.p2, p3 := f.p5, p5 := f.p3 }

/-- Go `type Cube struct` (server.go:93-101): the `faces` map becomes the
six fields `up .. down`; the `calibs` map becomes the six fields
`cU .. cD` (the values of `calibs` at the keys `U .. D`).  The `moves`
table of the struct is the separate definition `moveTable` below. -/
@[ext]
structure Cube where
  up : Face
  left : Face
  front : Face
  right : Face
  back : Face
  down : Face
  cU : FaceCode
  cL : FaceCode
  cF : FaceCode
  cR : FaceCode
  cB : FaceCode
  cD : FaceCode
deriving DecidableEq, Repr

/-- The map lookup `faces[code]` as a function of the face label. -/
def Cube.face (c : Cube) : FaceCode → Face
  | .U => c.up
  | .L => c.left
  | .F => c.front
  | .R => c.right
  | .B => c.back
  | .D => c.down

/-- The map lookup `calibs[code]` as a function of the (virtual) face
label. -/
def Cube.calib (c : Cube) : FaceCode → FaceCode
  | .U => c.cU
  | .L => c.cL
  | .F => c.cF
  | .R => c.cR
  | .B => c.cB
  | .D => c.cD

/-- The switch in the calibs-update loop of `flip` (server.go:157-169):
Up→Back, Front→Up, Down→Front, Back→Down, others unchanged. -/
def flipCalib : FaceCode → FaceCode
  | .U => .B
  | .F => .U
  | .D => .F
  | .B => .D
  | .L => .L
  | .R => .R

/-- The switch in the calibs-update loop of `turn` (server.go:191-203):
Left→Back, Front→Left, Right→Front, Back→Right, others unchanged. -/
def turnCalib : FaceCode → FaceCode
  | .L => .B
  | .F => .L
  | .R => .F
  | .B => .R
  | .U => .U
  | .D => .D

/-- Go method `flip` of `Cube` (server.go:142-175).  The loop over
`[Front, Down, Back]` performs, in order, the assignments
up ← front, front ← down, down ← back, then back ← saved restores the old
Up grid; afterwards the grids now at Back and Down are inverted, Right is
rotated clockwise, Left counter-clockwise, and every calibs entry is
mapped through `flipCalib`. -/
def Cube.flip (c : Cube) : Cube :=
  let saved := c.up
  let c := { c with up := c.front }
  let c := { c with front := c.down }
  let c := { c with down := c.back }
  let c := { c with back := saved }
  let c := { c with back := invert c.back }
  let c := { c with down := invert c.down }
  let c := { c with right := rotateClock c.right }
  let c := { c with left := rotateCounterclock c.left }
  { c with cU := flipCalib c.cU, cL := flipCalib c.cL, cF := flipCalib c.cF,
           cR := flipCalib c.cR, cB := flipCalib c.cB, cD := flipCalib c.cD }

/-- One iteration of the loop body of the `turn` method
(server.go:178-204).  The loop over `[Left, Front, Right, Back]` performs
the assignment left ← left (a no-op), then left ← front, front ← right,
right ← back, then back ← saved restores the old Left grid; Up is rotated
clockwise, Down counter-clockwise, and every calibs entry is mapped
through `turnCalib`. -/
def Cube.turnOnce (c : Cube) : Cube :=
  let saved := c.left
  let c := { c with left := c.front }
  let c := { c with front := c.right }
  let c := { c with right := c.back }
  let c := { c with back := saved }
  let c := { c with up := rotateClock c.up }
  let c := { c with down := rotateCounterclock c.down }
  { c with cU := turnCalib c.cU, cL := turnCalib c.cL, cF := turnCalib c.cF,
           cR := turnCalib c.cR, cB := turnCalib c.cB, cD := turnCalib c.cD }

/-- Go method `turn(n int)` (server.go:178-210): the quarter-turn body
applied `n` times. -/
def Cube.turn (c : Cube) : Nat → Cube
  | 0 => c
  | n + 1 => (c.turnOnce).turn n

/-- Go method `reverseTurn` (server.go:212-214). -/
def Cube.reverseTurn (c : Cube) : Cube :=
  c.turn 3

/-- Go method `D` (server.go:216-233).  Saves the bottom row of Left
(indices 6,7,8), then copies bottom rows Back into Left, Right into Back,
Front into Right, and finally the saved old Left row into Front; then
rotates the Down grid clockwise.  The calibs are untouched. -/
def Cube.D (c : Cube) : Cube :=
  let s6 := c.left.p6
  let s7 := c.left.p7
  let s8 := c.left.p8
  let c := { c with left := { c.left with p6 := c.back.p6, p7 := c.back.p7, p8 := c.back.p8 } }
  let c := { c with back := { c.back with p6 := c.right.p6, p7 := c.right.p7, p8 := c.right.p8 } }
  let c := { c with right := { c.right with p6 := c.front.p6, p7 := c.front.p7, p8 := c.front.p8 } }
  let c := { c with front := { c.front with p6 := s6, p7 := s7, p8 := s8 } }
  { c with down := rotateClock c.down }

/-- Go method `D2` (server.go:235-237). -/
def Cube.D2 (c : Cube) : Cube :=
  c.D.D

/-- Go method `d` (server.go:239-241). -/
def Cube.d (c : Cube) : Cube :=
  c.D.D.D

/-- The prime byte (0x27) that ends the reverse-move strings; spelled
through `Char.ofNat` so that it never appears as a literal. -/
def primeChar : Char := Char.ofNat 39

/-- Go constant `MoveFlip` (server.go:49). -/
def MoveFlip : String := "flip"

/-- Go constant `MoveTurn1` (server.go:50). -/
def MoveTurn1 : String := "turn"

/-- Go constant `MoveTurn2` (server.go:51). -/
def MoveTurn2 : String := "turn2"

/-- Go constant `MoveRTurn` (server.go:52): the word turn followed by the
prime byte. -/
def MoveRTurn : String := String.mk ['t', 'u', 'r', 'n', primeChar]

/-- Go constant `MoveD` (server.go:53). -/
def MoveD : String := "D"

/-- Go constant `MoveD2` (server.go:54). -/
def MoveD2 : String := "D2"

/-- Go constant `Moved` (server.go:55): the letter D followed by the prime
byte. -/
def Moved : String := String.mk ['D', primeChar]

/-- The 18-entry table built by `newMoves()` (server.go:243-326).  The Go
map from move string to closure becomes a function returning, for a known
key, the closure as a pure function `Cube → Cube × List String` (new cube
state and the emitted actuation tokens); `none` models a missing key. -/
def moveTable (m : String) : Option (Cube → Cube × List String) :=
  if m = "D" then some (fun c => (c.D, [MoveD]))
  else if m = "D2" then some (fun c => (c.D.D, [MoveD2]))
  else if m = String.mk ['D', primeChar] then some (fun c => (c.d, [Moved]))
  else if m = "B" then some (fun c => (c.flip.D, [MoveFlip, MoveD]))
  else if m = "B2" then some (fun c => (c.flip.D2, [MoveFlip, MoveD2]))
  else if m = String.mk ['B', primeChar] then some (fun c => (c.flip.d, [MoveFlip, Moved]))
  else if m = "U" then some (fun c => (c.flip.flip.D, [MoveFlip, MoveFlip, MoveD]))
  else if m = "U2" then some (fun c => (c.flip.flip.D2, [MoveFlip, MoveFlip, MoveD2]))
  else if m = String.mk ['U', primeChar] then some (fun c => (c.flip.flip.d, [MoveFlip, MoveFlip, Moved]))
  else if m = "L" then some (fun c => ((c.turn 1).flip.D, [MoveTurn1, MoveFlip, MoveD]))
  else if m = "L2" then some (fun c => ((c.turn 1).flip.D2, [MoveTurn1, MoveFlip, MoveD2]))
  else if m = String.mk ['L', primeChar] then some (fun c => ((c.turn 1).flip.d, [MoveTurn1, MoveFlip, Moved]))
  else if m = "R" then some (fun c => (c.reverseTurn.flip.D, [MoveRTurn, MoveFlip, MoveD]))
  else if m = "R2" then some (fun c => (c.reverseTurn.flip.D2, [MoveRTurn, MoveFlip, MoveD2]))
  else if m = String.mk ['R', primeChar] then some (fun c => (c.reverseTurn.flip.d, [MoveRTurn, MoveFlip, Moved]))
  else if m = "F" then some (fun c => ((c.turn 2).flip.D, [MoveTurn2, MoveFlip, MoveD]))
  else if m = "F2" then some (fun c => ((c.turn 2).flip.D2, [MoveTurn2, MoveFlip, MoveD2]))
  else if m = String.mk ['F', primeChar] then some (fun c => ((c.turn 2).flip.d, [MoveTurn2, MoveFlip, Moved]))
  else none

/-- The lookup that `Calib` performs on the first byte of the move
(server.go:345).  A byte that is no face label misses the Go map and
yields the zero byte. -/
def Cube.calibChar (c : Cube) (ch : Char) : Char :=
  if ch = 'U' then labChar c.cU
  else if ch = 'L' then labChar c.cL
  else if ch = 'F' then labChar c.cF
  else if ch = 'R' then labChar c.cR
  else if ch = 'B' then labChar c.cB
  else if ch = 'D' then labChar c.cD
  else Char.ofNat 0

/-- Go method `Calib` (server.go:343-347): replaces the first byte of the
move with its calibs image.  On the empty string Go would panic when
indexing byte 0; `Apply` never passes one (empty tokens are skipped). -/
def Cube.Calib (c : Cube) (m : String) : String :=
  match m.toList with
  | [] => ""
  | ch :: rest => String.mk (c.calibChar ch :: rest)

/-- Go method `Rotate` (server.go:349-356): looks the calibrated move up
in the table; a miss returns the error `no such move: <m>` and leaves the
cube untouched, a hit runs the closure. -/
def Cube.Rotate (c : Cube) (m : String) : Cube × Except String (List String) :=
  match moveTable (c.Calib m) with
  | none => (c, Except.error ("no such move: " ++ m))
  | some op =>
    let r := op c
    (r.1, Except.ok r.2)

/-- The Go function `strings.TrimSpace` restricted to the ASCII whitespace
the move tokens can contain (space, tab, newline, carriage return). -/
def isSpaceChar (ch : Char) : Bool :=
  ch = ' ' || ch = '\t' || ch = '\n' || ch = '\r'

/-- `strings.TrimSpace` as used by `Apply` (server.go:386). -/
def trimSpace (s : String) : String :=
  String.mk (((s.toList.dropWhile isSpaceChar).reverse.dropWhile isSpaceChar).reverse)

/-- Go method `Apply` (server.go:382-405): trims each token, skips empty
ones, rotates, and accumulates the emitted actuation tokens (the Go slice
`pMoves`); the first `Rotate` error aborts the loop, returning the error
with `nil` in place of the accumulated tokens, without restoring the cube
mutations already made.  `Except.map` reproduces the Go control flow: an
error from the remaining tokens is passed through unchanged, a success
has the tokens of this move prepended. -/
def Cube.Apply : Cube → List String → Cube × Except String (List String)
  | c, [] => (c, Except.ok [])
  | c, t :: rest =>
    let m := trimSpace t
    if m = "" then Cube.Apply c rest
    else
      match c.Rotate m with
      | (c2, Except.error e) => (c2, Except.error e)
      | (c2, Except.ok toks) =>
        let r := Cube.Apply c2 rest
        (r.1, Except.map (fun more => toks ++ more) r.2)

/-- The `colorToCode` table of `KociembaScramble` (server.go:359-362):
maps the center color of a grid to the calibs value at the physical label
of the grid.  Go iterates the `faces` map in unspecified order, later
writes winning; we fix the order `U,L,F,R,B,D`.  When the six centers are
distinct the result does not depend on the order; a color that is no
center misses the Go map and yields the zero byte. -/
def Cube.colorToCode (c : Cube) (col : Color) : Char :=
  [FaceCode.U, FaceCode.L, FaceCode.F, FaceCode.R, FaceCode.B, FaceCode.D].foldl
    (fun acc lab => if (c.face lab).p4 = col then labChar (c.calib lab) else acc)
    (Char.ofNat 0)

/-- Go method `KociembaScramble` (server.go:358-370): the 54 facelet
codes, faces in the order Up, Right, Front, Down, Left, Back, each face
emitting its nine pieces row-major.  The Go code builds the string
unconditionally: it has no error return and performs no validation. -/
def Cube.KociembaScramble (c : Cube) : String :=
  String.mk ([FaceCode.U, FaceCode.R, FaceCode.F, FaceCode.D, FaceCode.L, FaceCode.B].foldl
    (fun buf lab => buf ++ (c.face lab).toList.map c.colorToCode) [])

/-- The Go function `strings.ToLower` on the ASCII strings that
`parseField` receives. -/
def toLowerStr (s : String) : String :=
  String.mk (s.toList.map Char.toLower)

/-- Go `parseField` (server.go:466-483).  The Go switch lists the
capitalized names Red, Green, Blue, Yellow, which can never match the
lowercased input; they are kept verbatim. -/
def parseField (s : String) : Color :=
  let s := toLowerStr s
  if s = "white" || s = "w" then .White
  else if s = "Red" || s = "r" then .Red
  else if s = "Green" || s = "g" then .Green
  else if s = "Blue" || s = "b" then .Blue
  else if s = "Yellow" || s = "y" then .Yellow
  else if s = "Orange" || s = "o" then .Orange
  else .Unknown

/-- The character loop of `readFace` (server.go:488-495): parses each
character (Go renders it with Sprintf), failing at the first one that
parses to `Unknown` with `unknown color name: <char>`. -/
def readFacePieces : List Char → Except String (List Color)
  | [] => Except.ok []
  | b :: rest =>
    let s := String.singleton b
    let col := parseField s
    if col = .Unknown then Except.error ("unknown color name: " ++ s)
    else
      match readFacePieces rest with
      | Except.error e => Except.error e
      | Except.ok cols => Except.ok (col :: cols)

/-- Go `readFace` (server.go:485-501).  After the loop, `i` holds the
number of characters read; fewer than 9 fails with
`face string must contain 9 chars, but only had <9-i>` — note the Go
format argument is the shortfall `9-i`, not the count `i`.  (With more
than 9 characters Go would panic at the tenth array write; `httpCube`
only passes 9-byte strings.) -/
def readFace (line : String) : Except String Face :=
  match readFacePieces line.toList with
  | Except.error e => Except.error e
  | Except.ok cols =>
    if cols.length < 9 then
      Except.error ("face string must contain 9 chars, but only had " ++ toString (9 - cols.length))
    else
      Except.ok (Face.ofList cols)

/-- The per-face validation of `httpCube` (server.go:519-537) for one
query parameter `k=v`: a value whose length is not 9 answers
`face <k> must contain only [wrboyg], and must be 9 chars.`; otherwise a
`readFace` failure answers `ERROR: readFace(<k>, <v>) error: <err>`. -/
def httpReadFace (k : Char) (v : String) : Except String Face :=
  if v.length ≠ 9 then
    Except.error ("face " ++ String.singleton k ++ " must contain only [wrboyg], and must be 9 chars.")
  else
    match readFace v with
    | Except.error e =>
      Except.error ("ERROR: readFace(" ++ String.singleton k ++ ", " ++ v ++ ") error: " ++ e)
    | Except.ok f => Except.ok f

/-- A face wholly in one color. -/
def uniformFace (col : Color) : Face :=
  ⟨col, col, col, col, col, col, col, col, col⟩

/-- The canonically solved cube of the README example
(U=w L=g F=b R=o B=r D=y) with the identity calibration that `NewCube()`
installs (server.go:328-341). -/
def solvedCube : Cube :=
  { up := uniformFace .White, left := uniformFace .Green,
    front := uniformFace .Blue, right := uniformFace .Orange,
    back := uniformFace .Red, down := uniformFace .Yellow,
    cU := .U, cL := .L, cF := .F, cR := .R, cB := .B, cD := .D }

/-- A degenerate cube whose 54 facelets are all white (its six centers
coincide), with the identity calibration. -/
def allWhiteCube : Cube :=
  { up := uniformFace .White, left := uniformFace .White,
    front := uniformFace .White, right := uniformFace .White,
    back := uniformFace .White, down := uniformFace .White,
    cU := .U, cL := .L, cF := .F, cR := .R, cB := .B, cD := .D }

/-- The face order Up, Right, Front, Down, Left, Back in which the
scramble encoder emits the cube (spec section 4.3). -/
def encodeOrder (i : Fin 6) : FaceCode :=
  [FaceCode.U, FaceCode.R, FaceCode.F, FaceCode.D, FaceCode.L, FaceCode.B].get i

/-- The quarter rotation as section 4.1 of the spec words it, stated as
one simultaneous assignment: the slot cycle Left ← Front ← Right ← Back ←
Left (reading the spec arrow chain Left→Front→Right→Back→Left in the
order in which the source loop assigns), Up rotated clockwise, Down
counter-clockwise, and the calibration entries tracking the grid movement
Left→Back, Front→Left, Right→Front, Back→Right. -/
def turnQuarterSpec (c : Cube) : Cube :=
  { up := rotateClock c.up, left := c.front, front := c.right,
    right := c.back, back := c.left, down := rotateCounterclock c.down,
    cU := turnCalib c.cU, cL := turnCalib c.cL, cF := turnCalib c.cF,
    cR := turnCalib c.cR, cB := turnCalib c.cB, cD := turnCalib c.cD }

/-- A whole-cube reorientation call: `flip()` or `turn(n)`. -/
inductive Reorient where
  | flipR
  | turnR (n : Nat)

/-- Runs a sequence of whole-cube reorientation calls. -/
def execReorients : Cube → List Reorient → Cube
  | c, [] => c
  | c, .flipR :: rest => execReorients c.flip rest
  | c, .turnR n :: rest => execReorients (c.turn n) rest

/-- The three algebraic-move magnitudes: plain, 2, prime. -/
inductive Suffix where
  | one | two | prime

/-- The algebraic token for virtual face `f` and magnitude `s`. -/
def moveStr (f : FaceCode) : Suffix → String
  | .one => String.mk [labChar f]
  | .two => String.mk [labChar f, '2']
  | .prime => String.mk [labChar f, primeChar]

/-- One mechanically primitive actuation of the rig. -/
inductive Prim where
  | flipP
  | turnP (n : Nat)
  | spinP

/-- Executes a list of primitive actuations left to right. -/
def execPrims : Cube → List Prim → Cube
  | c, [] => c
  | c, .flipP :: r => execPrims c.flip r
  | c, .turnP n :: r => execPrims (c.turn n) r
  | c, .spinP :: r => execPrims c.D r

/-- The reorientation column of the spec table (section 4.2), keyed by the
physical slot that hosts the grid of the moved face. -/
def reorientSeq : FaceCode → List Prim
  | .D => []
  | .B => [.flipP]
  | .U => [.flipP, .flipP]
  | .L => [.turnP 1, .flipP]
  | .R => [.turnP 3, .flipP]
  | .F => [.turnP 2, .flipP]

/-- Spec section 4.2: plain magnitude → 1 SpinDown, 2 → 2, prime → 3. -/
def spinSeq : Suffix → List Prim
  | .one => [.spinP]
  | .two => [.spinP, .spinP]
  | .prime => [.spinP, .spinP, .spinP]

/-- The actuation tokens announcing the reorientation sequence. -/
def reorientToks : FaceCode → List String
  | .D => []
  | .B => [MoveFlip]
  | .U => [MoveFlip, MoveFlip]
  | .L => [MoveTurn1, MoveFlip]
  | .R => [MoveRTurn, MoveFlip]
  | .F => [MoveTurn2, MoveFlip]

/-- The actuation token announcing the spin of each magnitude. -/
def spinTok : Suffix → String
  | .one => MoveD
  | .two => MoveD2
  | .prime => Moved

/-- Claim C1: for every virtual move token (face letter plus optional 2 or
prime magnitude), `Rotate` consults the CalibrationMap to resolve the
virtual face to the physical slot hosting its grid, and then executes
exactly the reorientation sequence of the spec table for that slot — D
none, B one Flip, U two Flips, L Turn(1) then Flip, R Turn(3) then Flip,
F Turn(2) then Flip — followed by the spins of the magnitude: plain → 1
SpinDown, 2 → 2 SpinDowns, prime → 3 SpinDowns; the emitted actuation
tokens name the same sequence. -/
theorem rotate_table_spec (c : Cube) (f : FaceCode) (s : Suffix) :
    c.Rotate (moveStr f s)
      = (execPrims c (reorientSeq (c.calib f) ++ spinSeq s),
         Except.ok (reorientToks (c.calib f) ++ [spinTok s])) := by
  have h : c.Calib (moveStr f s) = moveStr (c.calib f) s := by
    cases f <;> cases s <;> rfl
  unfold Cube.Rotate
  rw [h]
  generalize c.calib f = p
  cases p <;> cases s <;> rfl

/-- Claim C2: on the canonically solved cube with identity calibration the
scramble encoder returns exactly the 54-character string
`UUUUUUUUURRRRRRRRRFFFFFFFFFDDDDDDDDDLLLLLLLLLBBBBBBBBB`, and in general
its output is ordered Up, Right, Front, Down, Left, Back with nine
characters per face row-major: character block `i` of the output is the
row-major code list of face `encodeOrder i`. -/
theorem kociemba_solved_and_order :
    solvedCube.KociembaScramble = "UUUUUUUUURRRRRRRRRFFFFFFFFFDDDDDDDDDLLLLLLLLLBBBBBBBBB"
    ∧ ∀ (c : Cube) (i : Fin 6),
        ((c.KociembaScramble).toList.drop (9 * i.val)).take 9
          = (c.face (encodeOrder i)).toList.map c.colorToCode := by
  refine ⟨rfl, ?_⟩
  intro c i
  fin_cases i <;> rfl

/-- Helper for claim C3: the source loop of `turn` equals iterating the
simultaneous quarter-rotation of the spec for every count, not just
1..3. -/
theorem turn_eq_iterate (n : Nat) : ∀ c : Cube, c.turn n = turnQuarterSpec^[n] c := by
  induction n with
  | zero => intro c; rfl
  | succ n ih =>
    intro c
    show (c.turnOnce).turn n = turnQuarterSpec^[n + 1] c
    rw [ih, Function.iterate_succ_apply]
    rfl

/-- Claim C3: for every cube state and every n in 1..3, `turn n` applies n
quarter rotations, each cycling the side grids along the chain
Left ← Front ← Right ← Back ← Left while rotating the Up grid 90 degrees
clockwise and the Down grid 90 degrees counter-clockwise — i.e. `turn n`
is the n-th iterate of `turnQuarterSpec`, whose definition spells out that
single quarter rotation. -/
theorem turn_quarter_iterate (c : Cube) (n : Nat) (_h1 : 1 ≤ n) (_h2 : n ≤ 3) :
    c.turn n = turnQuarterSpec^[n] c :=
  turn_eq_iterate n c

/-- Witness for claim C3 at n = 2 on the solved cube. -/
theorem turn_quarter_iterate_witness :
    1 ≤ 2 ∧ 2 ≤ 3 ∧ solvedCube.turn 2 = turnQuarterSpec^[2] solvedCube :=
  ⟨by decide, by decide, turn_quarter_iterate solvedCube 2 (by decide) (by decide)⟩

/-- Helper: the flip calibration permutation has order dividing 4. -/
theorem flipCalib_four (l : FaceCode) :
    flipCalib (flipCalib (flipCalib (flipCalib l))) = l := by
  cases l <;> rfl

/-- Helper: the turn calibration permutation has order dividing 4. -/
theorem turnCalib_four (l : FaceCode) :
    turnCalib (turnCalib (turnCalib (turnCalib l))) = l := by
  cases l <;> rfl

/-- Claim C4: from every starting cube state, four `flip` calls restore
the grid-to-slot assignment, every facelet color and the CalibrationMap
exactly, and so do four `turn 1` calls. -/
theorem flip_turn_period_four (c : Cube) :
    c.flip.flip.flip.flip = c ∧ (((c.turn 1).turn 1).turn 1).turn 1 = c := by
  constructor <;> apply Cube.ext <;>
    first | rfl | exact flipCalib_four _ | exact turnCalib_four _

/-- Helper: `flip` composes the calibration function with `flipCalib`. -/
theorem flip_calib_comp (c : Cube) : (c.flip).calib = flipCalib ∘ c.calib := by
  funext l; cases l <;> rfl

/-- Helper: one quarter turn composes the calibration function with
`turnCalib`. -/
theorem turnOnce_calib_comp (c : Cube) : (c.turnOnce).calib = turnCalib ∘ c.calib := by
  funext l; cases l <;> rfl

/-- Helper: `turn n` composes the calibration function with the n-th
iterate of `turnCalib`. -/
theorem turn_calib_comp (n : Nat) : ∀ c : Cube, (c.turn n).calib = turnCalib^[n] ∘ c.calib := by
  induction n with
  | zero => intro c; rfl
  | succ n ih =>
    intro c
    show ((c.turnOnce).turn n).calib = turnCalib^[n + 1] ∘ c.calib
    rw [ih, turnOnce_calib_comp, Function.iterate_succ]
    rfl

/-- Helper: `flipCalib` is a bijection of the six labels. -/
theorem flipCalib_bijective : Function.Bijective flipCalib := by decide

/-- Helper: `turnCalib` is a bijection of the six labels. -/
theorem turnCalib_bijective : Function.Bijective turnCalib := by decide

/-- Claim C5: starting from the identity calibration, after any finite
sequence of `flip` and `turn` calls the CalibrationMap is still a
bijection of the six face labels, and the `D` primitive (SpinDown) never
modifies the CalibrationMap. -/
theorem calib_bijection_and_spin :
    (∀ (ops : List Reorient) (c : Cube), c.calib = id →
        Function.Bijective ((execReorients c ops).calib))
    ∧ ∀ c : Cube, (c.D).calib = c.calib := by
  constructor
  · have key : ∀ (ops : List Reorient) (c : Cube),
        Function.Bijective c.calib → Function.Bijective ((execReorients c ops).calib) := by
      intro ops
      induction ops with
      | nil => intro c h; exact h
      | cons op rest ih =>
        intro c h
        cases op with
        | flipR =>
          exact ih _ (by rw [flip_calib_comp]; exact flipCalib_bijective.comp h)
        | turnR n =>
          exact ih _ (by rw [turn_calib_comp]; exact (turnCalib_bijective.iterate n).comp h)
    intro ops c h
    exact key ops c (by rw [h]; exact Function.bijective_id)
  · intro c; funext l; cases l <;> rfl

/-- Witness for claim C5: the solved cube has the identity calibration,
and after a flip and a turn the calibration is still a bijection. -/
theorem calib_bijection_and_spin_witness :
    solvedCube.calib = id
    ∧ Function.Bijective ((execReorients solvedCube [.flipR, .turnR 1]).calib) :=
  ⟨by funext l; cases l <;> rfl,
   calib_bijection_and_spin.1 [.flipR, .turnR 1] solvedCube (by funext l; cases l <;> rfl)⟩

/-- Claim C6: `D` (SpinDown) cycles only the bottom-row facelets (indices
6,7,8) of the side grids adjacent to Down — Left takes the old Back row,
Back the old Right row, Right the old Front row, Front the old Left row —
rotates the Down grid 90 degrees clockwise, and leaves every other facelet
(rows 0..5 of the four side grids and all of Up), the grid-to-slot
assignment and the CalibrationMap unchanged; `D2` performs two SpinDowns
and `d` (the reverse D) three. -/
theorem spinDown_frame_effect (c : Cube) :
    (c.D).up = c.up
    ∧ (∀ i : Fin 9, i.val < 6 →
        (c.D).left.piece i = c.left.piece i ∧ (c.D).front.piece i = c.front.piece i
        ∧ (c.D).right.piece i = c.right.piece i ∧ (c.D).back.piece i = c.back.piece i)
    ∧ (∀ i : Fin 9, 6 ≤ i.val →
        (c.D).left.piece i = c.back.piece i ∧ (c.D).back.piece i = c.right.piece i
        ∧ (c.D).right.piece i = c.front.piece i ∧ (c.D).front.piece i = c.left.piece i)
    ∧ (c.D).down = rotateClock c.down
    ∧ (c.D).calib = c.calib
    ∧ c.D2 = c.D.D ∧ c.d = c.D.D.D := by
  refine ⟨rfl, ?_, ?_, rfl, ?_, rfl, rfl⟩
  · intro i h
    fin_cases i <;> first | exact ⟨rfl, rfl, rfl, rfl⟩ | exact absurd h (by decide)
  · intro i h
    fin_cases i <;> first | exact ⟨rfl, rfl, rfl, rfl⟩ | exact absurd h (by decide)
  · funext l; cases l <;> rfl

/-- Witness for claim C6 on the solved cube: an untouched facelet (index
0) and a cycled one (index 6). -/
theorem spinDown_frame_effect_witness :
    ((0 : Fin 9).val < 6 ∧ (solvedCube.D).left.piece 0 = solvedCube.left.piece 0)
    ∧ (6 ≤ (6 : Fin 9).val ∧ (solvedCube.D).left.piece 6 = solvedCube.back.piece 6) :=
  ⟨⟨by decide, ((spinDown_frame_effect solvedCube).2.1 0 (by decide)).1⟩,
   ⟨by decide, ((spinDown_frame_effect solvedCube).2.2.1 6 (by decide)).1⟩⟩

/-- Counterexample for claim C7: the claim predicts a ValidationError when
the six centers are not six distinct colors, but `KociembaScramble` has no
error path at all — on the all-white cube (all six centers equal) it
returns normally, every facelet encoding to the letter of the last face in
the table-building order. -/
theorem kociemba_no_validation_cex :
    allWhiteCube.up.p4 = allWhiteCube.down.p4
    ∧ allWhiteCube.KociembaScramble
        = "DDDDDDDDDDDDDDDDDDDDDDDDDDDDDDDDDDDDDDDDDDDDDDDDDDDDDD" :=
  ⟨rfl, rfl⟩

/-- Claim C7 as amended: the scramble encoder performs no validation and
never fails — for every cube state, degenerate or not, it returns a
54-character string (a facelet color matching no entry of the
center-color table encodes as the zero byte). -/
theorem kociemba_total_length (c : Cube) : (c.KociembaScramble).length = 54 := rfl

/-- Helper shared by claims C8 and C10: a move whose calibrated form
misses the table makes `Rotate` return the original cube and the error
text `no such move: <m>`. -/
theorem rotate_table_miss {c : Cube} {m : String} (h : moveTable (c.Calib m) = none) :
    c.Rotate m = (c, Except.error ("no such move: " ++ m)) := by
  simp [Cube.Rotate, h]

/-- Claim C10: for every cube state and every nonempty move token whose
calibrated form is not a key of the move table, `Rotate` returns an error
and leaves the cube completely unchanged — same facelets, same grid
assignment, same CalibrationMap — and produces no actuation tokens.  (The
empty token is excluded: Go would panic inside `Calib` before the lookup,
and `Apply` filters empty tokens out.) -/
theorem rotate_unknown_unchanged (c : Cube) (m : String) (_hm : m ≠ "")
    (h : moveTable (c.Calib m) = none) :
    c.Rotate m = (c, Except.error ("no such move: " ++ m)) :=
  rotate_table_miss h

/-- Witness for claim C10: the unknown token X on the solved cube. -/
theorem rotate_unknown_unchanged_witness :
    ("X" ≠ "") ∧ moveTable (solvedCube.Calib "X") = none
    ∧ solvedCube.Rotate "X" = (solvedCube, Except.error ("no such move: " ++ "X")) :=
  ⟨by decide, rfl, rotate_unknown_unchanged solvedCube "X" (by decide) rfl⟩

/-- Helper: `Apply` discards a token that trims to the empty string. -/
theorem apply_skip (c : Cube) (t : String) (rest : List String) (h : trimSpace t = "") :
    Cube.Apply c (t :: rest) = Cube.Apply c rest := by
  simp [Cube.Apply, h]

/-- Helper: `Apply` on a nonempty token whose rotation fails stops with
that error. -/
theorem apply_cons_error {c c2 : Cube} {t e : String} (rest : List String)
    (ht : ¬ trimSpace t = "") (hrot : c.Rotate (trimSpace t) = (c2, Except.error e)) :
    Cube.Apply c (t :: rest) = (c2, Except.error e) := by
  simp [Cube.Apply, ht, hrot]

/-- Helper: `Apply` on a nonempty token whose rotation succeeds recurses
on the rest, prepending the emitted tokens on success. -/
theorem apply_cons_ok {c c2 : Cube} {t : String} {tk : List String} (rest : List String)
    (ht : ¬ trimSpace t = "") (hrot : c.Rotate (trimSpace t) = (c2, Except.ok tk)) :
    Cube.Apply c (t :: rest)
      = ((Cube.Apply c2 rest).1, Except.map (fun more => tk ++ more) (Cube.Apply c2 rest).2) := by
  simp [Cube.Apply, ht, hrot]

/-- Counterexample for claim C8: the claim predicts an error that reports
the index and the text of the malformed token, but for the move list
R Q D, whose malformed token Q sits at index 1, the error text is exactly
`no such move: Q` — it names the text only and contains no digit 1, so no
index. -/
theorem apply_error_no_index_cex :
    (solvedCube.Apply ["R", "Q", "D"]).2 = Except.error "no such move: Q"
    ∧ ("no such move: Q".toList.contains '1') = false :=
  ⟨rfl, by decide⟩

/-- Claim C8 as amended: `Apply` processes tokens strictly in order,
discards tokens that trim to the empty string, and stops at the first
malformed token (one whose calibrated form misses the move table) with an
error that reports that token text — but not its index — leaving the
mutations of the already-applied tokens in place (the resulting cube is
the one reached after the clean front segment) while the accumulated
actuation tokens are dropped from the error return. -/
theorem apply_stops_first_malformed :
    (∀ (c : Cube) (t : String) (rest : List String),
        trimSpace t = "" → Cube.Apply c (t :: rest) = Cube.Apply c rest)
    ∧ ∀ (pre : List String) (c c1 : Cube) (toks : List String) (bad : String) (post : List String),
        Cube.Apply c pre = (c1, Except.ok toks) →
        ¬ trimSpace bad = "" →
        moveTable (c1.Calib (trimSpace bad)) = none →
        Cube.Apply c (pre ++ bad :: post)
          = (c1, Except.error ("no such move: " ++ trimSpace bad)) := by
  constructor
  · exact apply_skip
  · intro pre
    induction pre with
    | nil =>
      intro c c1 toks bad post h hbad htab
      simp only [Cube.Apply] at h
      injection h with h1 h2
      subst h1
      rw [List.nil_append]
      exact apply_cons_error post hbad (rotate_table_miss htab)
    | cons a pre ih =>
      intro c c1 toks bad post h hbad htab
      rw [List.cons_append]
      by_cases ha : trimSpace a = ""
      · rw [apply_skip c a _ ha]
        exact ih c c1 toks bad post (by rwa [apply_skip c a pre ha] at h) hbad htab
      · rcases hr : c.Rotate (trimSpace a) with ⟨c2, r⟩
        cases r with
        | error e =>
          rw [apply_cons_error pre ha hr] at h
          injection h with h1 h2
          exact absurd h2 (by simp)
        | ok tk =>
          rw [apply_cons_ok pre ha hr] at h
          rcases hA : Cube.Apply c2 pre with ⟨c3, r2⟩
          rw [hA] at h
          cases r2 with
          | error e2 => simp [Except.map] at h
          | ok more =>
            injection h with h1 h2
            simp only at h1
            rw [apply_cons_ok (pre ++ bad :: post) ha hr]
            rw [ih c2 c1 more bad post (h1 ▸ hA) hbad htab]
            simp [Except.map]

/-- Witness for claim C8: a blank token is skipped, and the list R Q D
stops at Q with the cube of the clean front segment R. -/
theorem apply_stops_first_malformed_witness :
    (trimSpace "" = "" ∧ Cube.Apply solvedCube ["", "D"] = Cube.Apply solvedCube ["D"])
    ∧ (Cube.Apply solvedCube ["R"]
         = ((Cube.Apply solvedCube ["R"]).1, Except.ok [MoveRTurn, MoveFlip, MoveD])
       ∧ ¬ trimSpace "Q" = ""
       ∧ moveTable (((Cube.Apply solvedCube ["R"]).1).Calib (trimSpace "Q")) = none
       ∧ Cube.Apply solvedCube (["R"] ++ "Q" :: ["D"])
           = ((Cube.Apply solvedCube ["R"]).1, Except.error ("no such move: " ++ trimSpace "Q"))) :=
  ⟨⟨rfl, apply_stops_first_malformed.1 solvedCube "" ["D"] rfl⟩,
   ⟨rfl, by decide, rfl,
    apply_stops_first_malformed.2 ["R"] solvedCube (Cube.Apply solvedCube ["R"]).1
      [MoveRTurn, MoveFlip, MoveD] "Q" ["D"] rfl (by decide) rfl⟩⟩

/-- Helper: the character loop of `readFace` fails at the first character
that parses to `Unknown`, naming that character. -/
theorem readFacePieces_first_unknown (ch : Char) (post : List Char) :
    ∀ pre : List Char, (∀ a ∈ pre, ¬ parseField (String.singleton a) = Color.Unknown) →
      parseField (String.singleton ch) = Color.Unknown →
      readFacePieces (pre ++ ch :: post)
        = Except.error ("unknown color name: " ++ String.singleton ch) := by
  intro pre
  induction pre with
  | nil => intro _ hch; simp [readFacePieces, hch]
  | cons a pre ih =>
    intro hpre hch
    have ha : ¬ parseField (String.singleton a) = Color.Unknown := hpre a (by simp)
    have hrest := ih (fun x hx => hpre x (by simp [hx])) hch
    simp [readFacePieces, ha, hrest]

/-- Counterexample for claim C9: the claim predicts that an 8-character
facelet string yields an error naming the face and the text
`8 characters, 1 short.`, but the code answers the fixed message
`face U must contain only [wrboyg], and must be 9 chars.` — which states
no character count at all (it does not even contain the digit 8). -/
theorem face_length_message_cex :
    httpReadFace 'U' "wwwwwwww"
        = Except.error "face U must contain only [wrboyg], and must be 9 chars."
    ∧ ("face U must contain only [wrboyg], and must be 9 chars.".toList.contains '8')
        = false :=
  ⟨rfl, by decide⟩

/-- Claim C9 as amended: a facelet string of the wrong length fails with
an error naming the offending face followed by the fixed text
`must contain only [wrboyg], and must be 9 chars.` (no character count);
a 9-character string containing an out-of-alphabet character fails with an
error naming the face, the full value, and the first offending character
as `unknown color name: <char>`. -/
theorem face_validation_messages (k : Char) (v : String) :
    (v.length ≠ 9 →
      httpReadFace k v
        = Except.error ("face " ++ String.singleton k
            ++ " must contain only [wrboyg], and must be 9 chars."))
    ∧ (∀ e, v.length = 9 → readFace v = Except.error e →
        httpReadFace k v
          = Except.error ("ERROR: readFace(" ++ String.singleton k ++ ", " ++ v
              ++ ") error: " ++ e))
    ∧ ∀ (ch : Char) (pre post : List Char),
        (∀ a ∈ pre, ¬ parseField (String.singleton a) = Color.Unknown) →
        parseField (String.singleton ch) = Color.Unknown →
        readFace (String.mk (pre ++ ch :: post))
          = Except.error ("unknown color name: " ++ String.singleton ch) := by
  refine ⟨?_, ?_, ?_⟩
  · intro hlen
    simp [httpReadFace, hlen]
  · intro e hlen hread
    simp [httpReadFace, hlen, hread]
  · intro ch pre post hpre hch
    have h := readFacePieces_first_unknown ch post pre hpre hch
    simp [readFace, h]

/-- Witness for claim C9: the three failure shapes at concrete inputs —
an 8-character value, a 9-character value with a bad final character, and
the bad character located by the loop lemma. -/
theorem face_validation_messages_witness :
    (("wwwwwwww" : String).length ≠ 9
      ∧ httpReadFace 'U' "wwwwwwww"
          = Except.error ("face " ++ String.singleton 'U'
              ++ " must contain only [wrboyg], and must be 9 chars."))
    ∧ (("wwwwwwwwx" : String).length = 9
      ∧ readFace "wwwwwwwwx" = Except.error "unknown color name: x"
      ∧ httpReadFace 'U' "wwwwwwwwx"
          = Except.error ("ERROR: readFace(" ++ String.singleton 'U' ++ ", " ++ "wwwwwwwwx"
              ++ ") error: " ++ "unknown color name: x"))
    ∧ readFace (String.mk ("wwwwwwww".toList ++ 'x' :: []))
        = Except.error ("unknown color name: " ++ String.singleton 'x') :=
  ⟨⟨by decide, (face_validation_messages 'U' "wwwwwwww").1 (by decide)⟩,
   ⟨by decide, rfl,
    (face_validation_messages 'U' "wwwwwwwwx").2.1 "unknown color name: x" (by decide) rfl⟩,
   (face_validation_messages 'U' "wwwwwwwwx").2.2 'x' "wwwwwwww".toList []
     (by decide) (by decide)⟩
